import Mathlib

/-!
Verification of the college-data extraction and cleaning pipeline.

Strings of the Python source are modelled as lists of characters
(`Str := List Char`), restricted to the printable ASCII universe the
pipeline traffics in.  Machine reals never appear: the two quality
scores are finite sums of decimal constants, modelled as exact
rationals (the reachable values are never representation-sensitive and
never sit on a rounding tie).  `processed_at`, a wall-clock timestamp,
carries no logic and is omitted from the records; the current year used
by establishment-year validation is passed as an explicit parameter.
-/

abbrev Str := List Char

/-- Python `\s` on the ASCII plane (the six whitespace characters). -/
def pyIsSpace (c : Char) : Bool :=
  c == ' ' || c == '\t' || c == '\n' || c == '\r' || c == '\x0b' || c == '\x0c'

/-- Python `\w` on the ASCII plane. -/
def isWordChar (c : Char) : Bool := c.isAlpha || c.isDigit || c == '_'

/-- Character whitelist of `clean_text`: `[^\w\s.,!?()-]` is removed. -/
def isAllowedChar (c : Char) : Bool :=
  isWordChar c || pyIsSpace c || c == '.' || c == ',' || c == '!' ||
  c == '?' || c == '(' || c == ')' || c == '-'

def lowerStr (s : Str) : Str := s.map Char.toLower

/-- `re.sub(r'\s+', ' ', s)`: every maximal whitespace run becomes one space.
Fuel-based so the kernel can evaluate it; fuel `s.length` always suffices. -/
def collapse_ws_aux : Nat → Str → Str
  | _, [] => []
  | 0, s => s
  | n + 1, c :: rest =>
    if pyIsSpace c then ' ' :: collapse_ws_aux n (rest.dropWhile pyIsSpace)
    else c :: collapse_ws_aux n rest

def collapse_ws (s : Str) : Str := collapse_ws_aux s.length s

/-- Python `str.replace(pat, rep)`: leftmost, non-overlapping, global.
All call sites use non-empty literal patterns. -/
def replace_all_aux (pat rep : Str) : Nat → Str → Str
  | _, [] => []
  | 0, s => s
  | n + 1, c :: rest =>
    if !pat.isEmpty && pat.isPrefixOf (c :: rest) then
      rep ++ replace_all_aux pat rep n (rest.drop (pat.length - 1))
    else c :: replace_all_aux pat rep n rest

def replace_all (pat rep s : Str) : Str := replace_all_aux pat rep s.length s

/-- Python `str.strip()` (whitespace from both ends). -/
def py_strip (s : Str) : Str :=
  ((s.dropWhile pyIsSpace).reverse.dropWhile pyIsSpace).reverse

/-- The fixed entity table of `clean_text` (utils.py), in declaration order.
`&#39;` maps to the apostrophe character, written via its code point. -/
def html_entities : List (Str × Str) :=
  [(r"&amp;".toList, ['&']),
   (r"&lt;".toList, ['<']),
   (r"&gt;".toList, ['>']),
   (r"&quot;".toList, ['"']),
   (r"&#39".toList ++ [';'], [Char.ofNat 39]),
   (r"&nbsp;".toList, [' ']),
   (r"&hellip;".toList, ['.', '.', '.'])]

def apply_entities (s : Str) : Str :=
  html_entities.foldl (fun t pr => replace_all pr.1 pr.2 t) s

/-- `clean_text` (utils.py lines 58-80): whitespace collapse, charset strip,
entity pass, trim.  The `isinstance` guard of the source is the string-typed
view here; the dynamic model below routes non-strings to the empty string. -/
def clean_text (s : Str) : Str :=
  if s = [] then []
  else py_strip (apply_entities ((collapse_ws s).filter isAllowedChar))

example : (r"ab".toList) = ['a', 'b'] := rfl
example : clean_text (r"x &amp; y".toList) = r"x amp y".toList := by decide
example : collapse_ws (r"a   b".toList) = r"a b".toList := by decide

/-- `normalize_phone_number` (utils.py lines 134-156). -/
def normalize_phone_number (phone : Str) : Option Str :=
  if phone = [] then none
  else
    let c0 := phone.filter (fun c => c.isDigit || c == '+')
    let c1 :=
      if (r"+91".toList).isPrefixOf c0 then c0.drop 3
      else if (r"91".toList).isPrefixOf c0 && c0.length = 12 then c0.drop 2
      else if (r"0".toList).isPrefixOf c0 then c0.drop 1
      else c0
    if c1.length = 10 && c1.all Char.isDigit then
      some ((r"+91-".toList) ++ c1.take 5 ++ ['-'] ++ c1.drop 5)
    else if 6 ≤ c1.length && c1.length ≤ 11 && c1.all Char.isDigit then some c1
    else none

def emailLocalChar (c : Char) : Bool :=
  c.isAlpha || c.isDigit || c == '.' || c == '_' || c == '%' || c == '+' || c == '-'

def emailDomainChar (c : Char) : Bool :=
  c.isAlpha || c.isDigit || c == '.' || c == '-'

/-- Core of the email regex `^[a-zA-Z0-9._%+-]+@[a-zA-Z0-9.-]+\.[a-zA-Z]{2,}$`:
local part up to the first `@`, domain split at its last dot (the top-level
label is alphabetic, so only the last dot can satisfy the regex). -/
def email_core (s : Str) : Bool :=
  let loc := s.takeWhile (fun c => c ≠ '@')
  let rest := (s.dropWhile (fun c => c ≠ '@')).drop 1
  let rrev := rest.reverse
  let tldRev := rrev.takeWhile (fun c => c ≠ '.')
  let dom := (rrev.drop (tldRev.length + 1)).reverse
  let tld := tldRev.reverse
  !loc.isEmpty && loc.all emailLocalChar && tldRev.length < rrev.length &&
  !dom.isEmpty && dom.all emailDomainChar && 2 ≤ tld.length && tld.all Char.isAlpha

/-- `validate_email` (utils.py lines 158-164).  `re.match` with `$` also
accepts one trailing newline, mirrored by the second disjunct. -/
def validate_email (email : Str) : Bool :=
  if email = [] || !(email.contains '@') then false
  else email_core email ||
    (email.getLast? == some '\n' && email_core email.dropLast)

example : normalize_phone_number (r"+91 98765 43210".toList) = some (r"+91-98765-43210".toList) := by decide
example : normalize_phone_number (r"09876543210".toList) = some (r"+91-98765-43210".toList) := by decide
example : validate_email (r"info@college.ac.in".toList) = true := by decide
example : validate_email (r"bad@@x.com".toList) = false := by decide
example : validate_email (r"a@b".toList) = false := by decide

/-- `DataProcessor.course_categories` (data_processor.py lines 31-64), an
insertion-ordered dict modelled as an association list in declaration order. -/
def course_categories : List (Str × List Str) :=
  [(r"Engineering".toList,
    [r"btech".toList, r"be".toList, r"mtech".toList, r"me".toList, r"civil".toList,
     r"mechanical".toList, r"electrical".toList, r"computer science".toList,
     r"information technology".toList, r"electronics".toList, r"chemical".toList]),
   (r"Medical".toList,
    [r"mbbs".toList, r"bds".toList, r"md".toList, r"ms".toList, r"nursing".toList,
     r"pharmacy".toList, r"physiotherapy".toList, r"medical".toList,
     r"dental".toList, r"veterinary".toList]),
   (r"Management".toList,
    [r"mba".toList, r"bba".toList, r"pgdm".toList, r"management".toList,
     r"business administration".toList, r"finance".toList, r"marketing".toList,
     r"hr".toList, r"operations".toList]),
   (r"Arts".toList,
    [r"ba".toList, r"ma".toList, r"english".toList, r"history".toList,
     r"political science".toList, r"sociology".toList, r"psychology".toList,
     r"literature".toList, r"fine arts".toList, r"performing arts".toList]),
   (r"Science".toList,
    [r"bsc".toList, r"msc".toList, r"physics".toList, r"chemistry".toList,
     r"biology".toList, r"mathematics".toList, r"botany".toList, r"zoology".toList,
     r"microbiology".toList, r"biotechnology".toList]),
   (r"Commerce".toList,
    [r"bcom".toList, r"mcom".toList, r"commerce".toList, r"accounting".toList,
     r"economics".toList, r"taxation".toList, r"banking".toList, r"insurance".toList]),
   (r"Computer Science".toList,
    [r"bca".toList, r"mca".toList, r"computer science".toList,
     r"information technology".toList, r"software engineering".toList,
     r"data science".toList, r"artificial intelligence".toList]),
   (r"Law".toList,
    [r"llb".toList, r"llm".toList, r"law".toList, r"legal studies".toList,
     r"constitutional law".toList, r"corporate law".toList, r"criminal law".toList])]

/-- `DataProcessor.facility_categories` (data_processor.py lines 67-91). -/
def facility_categories : List (Str × List Str) :=
  [(r"Academic".toList,
    [r"library".toList, r"laboratory".toList, r"computer lab".toList,
     r"classroom".toList, r"auditorium".toList, r"seminar hall".toList,
     r"conference room".toList, r"research center".toList]),
   (r"Accommodation".toList,
    [r"hostel".toList, r"dormitory".toList, r"residence".toList,
     r"accommodation".toList, r"guest house".toList, r"boys hostel".toList,
     r"girls hostel".toList]),
   (r"Recreation".toList,
    [r"sports complex".toList, r"gymnasium".toList, r"playground".toList,
     r"swimming pool".toList, r"cafeteria".toList, r"canteen".toList,
     r"food court".toList, r"student center".toList]),
   (r"Technology".toList,
    [r"wifi".toList, r"internet".toList, r"computer center".toList,
     r"smart classroom".toList, r"projector".toList, r"audio visual".toList,
     r"language lab".toList]),
   (r"Healthcare".toList,
    [r"medical center".toList, r"health center".toList, r"clinic".toList,
     r"infirmary".toList, r"first aid".toList, r"counseling center".toList]),
   (r"Transportation".toList,
    [r"bus service".toList, r"transport".toList, r"shuttle".toList,
     r"parking".toList, r"vehicle".toList])]

/-- Case-insensitive literal prefix test (the `re.IGNORECASE` matches below
compare a lowercase pattern against the lowered text, character by character). -/
def ci_prefix : Str → Str → Bool
  | [], _ => true
  | _ :: _, [] => false
  | p :: ps, c :: cs => p == c.toLower && ci_prefix ps cs

/-- One alternative of `^(college of|institute of|university of)\s+`:
phrase (case-insensitive) followed by at least one whitespace character,
which `\s+` consumes greedily. -/
def try_leading_phrase (p : Str) (s : Str) : Option Str :=
  if ci_prefix p s then
    match s.drop p.length with
    | c :: rest => if pyIsSpace c then some (rest.dropWhile pyIsSpace) else none
    | [] => none
  else none

/-- `re.sub(r'^(college of|institute of|university of)\s+', '', name, re.I)`;
the three alternatives start with distinct letters, tried in pattern order. -/
def strip_leading_inst (s : Str) : Str :=
  match try_leading_phrase (r"college of".toList) s with
  | some res => res
  | none =>
  match try_leading_phrase (r"institute of".toList) s with
  | some res => res
  | none =>
  match try_leading_phrase (r"university of".toList) s with
  | some res => res
  | none => s

/-- One alternative of `re.sub(r'\s+(college|institute|university)$', r' \1', name, re.I)`:
if the text ends (case-insensitively) in the word preceded by whitespace, the
maximal whitespace run before it and the word are replaced by a single space
and the word in its original case. -/
def try_trailing_word (w : Str) (s : Str) : Option Str :=
  let n := s.length
  let wl := w.length
  if wl < n && ci_prefix w (s.drop (n - wl)) && (s.drop (n - wl)).length = wl then
    let pre := s.take (n - wl)
    match pre.getLast? with
    | some c =>
      if pyIsSpace c then
        some ((pre.reverse.dropWhile pyIsSpace).reverse ++ [' '] ++ s.drop (n - wl))
      else none
    | none => none
  else none

def fix_trailing_word (s : Str) : Str :=
  match try_trailing_word (r"college".toList) s with
  | some res => res
  | none =>
  match try_trailing_word (r"institute".toList) s with
  | some res => res
  | none =>
  match try_trailing_word (r"university".toList) s with
  | some res => res
  | none => s

/-- Python `str.isupper`: at least one cased character and no lowercase one
(cased = letter on the ASCII plane). -/
def py_isupper (s : Str) : Bool :=
  s.any Char.isAlpha && s.all (fun c => !c.isAlpha || c.isUpper)

def py_islower (s : Str) : Bool :=
  s.any Char.isAlpha && s.all (fun c => !c.isAlpha || c.isLower)

/-- Python `str.split()` with no separator: whitespace runs, no empty parts. -/
def split_ws_aux : Nat → Str → List Str
  | _, [] => []
  | 0, _ => []
  | n + 1, s =>
    let s1 := s.dropWhile pyIsSpace
    if s1 = [] then []
    else (s1.takeWhile (fun c => !pyIsSpace c)) ::
      split_ws_aux n (s1.dropWhile (fun c => !pyIsSpace c))

def split_ws (s : Str) : List Str := split_ws_aux s.length s

/-- Python `str.capitalize()`: first character uppercased, rest lowercased. -/
def py_capitalize : Str → Str
  | [] => []
  | c :: rest => c.toUpper :: rest.map Char.toLower

/-- `' '.join(word.capitalize() for word in name.split())`. -/
def title_words (s : Str) : Str :=
  List.intercalate [' '] ((split_ws s).map py_capitalize)

/-- Body of `clean_college_name` after its `clean_text` call
(data_processor.py lines 136-147). -/
def clean_name_body (t : Str) : Str :=
  let t1 := strip_leading_inst t
  let t2 := fix_trailing_word t1
  let t3 := py_strip (collapse_ws t2)
  if py_isupper t3 || py_islower t3 then title_words t3 else t3

/-- `clean_college_name` (data_processor.py lines 129-147). -/
def clean_college_name (name : Str) : Str :=
  if name = [] then r"Unknown College".toList
  else clean_name_body (clean_text name)

example : clean_college_name (r"Test College".toList) = r"Test College".toList := by decide
example : clean_college_name (r"University of University of Mysore".toList) = r"University of Mysore".toList := by decide
example : clean_college_name (r"University of Mysore".toList) = r"Mysore".toList := by decide
example : clean_college_name (r"ABC COLLEGE".toList) = r"Abc College".toList := by decide

/-- Python `in` on strings: substring occurrence. -/
def is_substr (pat s : Str) : Bool :=
  (List.range (s.length + 1)).any (fun i => pat.isPrefixOf (s.drop i))

def karnataka_cities : List Str :=
  [r"bangalore".toList, r"mysore".toList, r"hubli".toList, r"dharwad".toList,
   r"belgaum".toList, r"mangalore".toList, r"gulbarga".toList, r"davangere".toList,
   r"bellary".toList, r"bijapur".toList, r"shimoga".toList, r"tumkur".toList,
   r"raichur".toList, r"bidar".toList, r"hassan".toList, r"udupi".toList,
   r"chickmagalur".toList]

/-- First index at which `pat` occurs in `s`. -/
def first_occ (pat s : Str) : Option Nat :=
  (List.range (s.length + 1)).find? (fun i => pat.isPrefixOf (s.drop i))

/-- Largest index `j ≤ m` at which `pat` occurs in `s`. -/
def last_occ_le (pat s : Str) (m : Nat) : Option Nat :=
  ((List.range (m + 1)).filter (fun i => pat.isPrefixOf (s.drop i))).getLast?

/-- `re.search(rf'.{0,50}CITY.{0,50}', location_lower)` for a literal city:
the match starts at the leftmost position from which the city is reachable
within 50 characters, the greedy left context picks the last city occurrence
in that window, and the greedy right context extends up to 50 characters.
The searched text contains no newline (it went through `clean_text`). -/
def city_window (city ll : Str) : Str :=
  match first_occ city ll with
  | none => ll
  | some i0 =>
    let p := i0 - 50
    match last_occ_le city ll (p + 50) with
    | none => ll
    | some j =>
      let stop := j + city.length + min 50 (ll.length - (j + city.length))
      (ll.drop p).take (stop - p)

/-- `clean_location` (data_processor.py lines 149-173). -/
def clean_location (location : Str) : Str :=
  if location = [] then []
  else
    let loc := clean_text location
    let ll := lowerStr loc
    match karnataka_cities.find? (fun c => is_substr c ll) with
    | some city => clean_text (city_window city ll)
    | none => if 100 < loc.length then loc.take 100 else loc

/-- Length of a match of `(pin\s*code|pincode|zip)[\s:]*\d{6}` starting at the
head of `s`, if any.  The `pincode` alternative is subsumed by `pin\s*code`
with an empty run; the character classes on either side of `\d{6}` are
disjoint from the digits, so the greedy quantifiers need no backtracking. -/
def pin_match_len (s : Str) : Option Nat :=
  let kw : Option Nat :=
    if ci_prefix (r"pin".toList) s then
      let rest := s.drop 3
      let wsRun := rest.takeWhile pyIsSpace
      if ci_prefix (r"code".toList) (rest.drop wsRun.length) then
        some (3 + wsRun.length + 4)
      else if ci_prefix (r"zip".toList) s then some 3 else none
    else if ci_prefix (r"zip".toList) s then some 3 else none
  match kw with
  | none => none
  | some k =>
    let rest := s.drop k
    let sep := rest.takeWhile (fun c => pyIsSpace c || c == ':')
    let ds := rest.drop sep.length
    if (ds.take 6).length = 6 && (ds.take 6).all Char.isDigit then
      some (k + sep.length + 6)
    else none

/-- Global removal of the PIN/ZIP pattern, scanning left to right. -/
def sub_pin_aux : Nat → Str → Str
  | _, [] => []
  | 0, s => s
  | n + 1, c :: rest =>
    match pin_match_len (c :: rest) with
    | some k => sub_pin_aux n ((c :: rest).drop k)
    | none => c :: sub_pin_aux n rest

def sub_pin (s : Str) : Str := sub_pin_aux s.length s

/-- `clean_address` (data_processor.py lines 175-186). -/
def clean_address (address : Str) : Str :=
  if address = [] then []
  else
    let a := py_strip (collapse_ws (sub_pin (clean_text address)))
    if 200 < a.length then a.take 200 else a

/-- The accumulation loop of `clean_phone_numbers`: normalize each entry,
keep it when valid and not seen before. -/
def phone_loop : List Str → List Str → List Str
  | [], _ => []
  | p :: rest, seen =>
    match normalize_phone_number p with
    | some v => if v ∈ seen then phone_loop rest seen
                else v :: phone_loop rest (v :: seen)
    | none => phone_loop rest seen

/-- `clean_phone_numbers` (data_processor.py lines 188-203). -/
def clean_phone_numbers (l : List Str) : List Str :=
  if l = [] then [] else (phone_loop l []).take 5

/-- The accumulation loop of `clean_email_addresses`: strip, lower,
validate, de-duplicate. -/
def email_loop : List Str → List Str → List Str
  | [], _ => []
  | e :: rest, seen =>
    let v := lowerStr (py_strip e)
    if validate_email v && !(seen.contains v) then v :: email_loop rest (v :: seen)
    else email_loop rest seen

/-- `clean_email_addresses` (data_processor.py lines 205-220). -/
def clean_email_addresses (l : List Str) : List Str :=
  if l = [] then [] else (email_loop l []).take 3

/-- `urlparse(u).netloc` for the strings `clean_website_url` builds: they are
empty or start with `http://`/`https://` (possibly prepended), and the netloc
runs from after the `//` to the next `/`, `?` or `#`. -/
def netloc_of (u : Str) : Str :=
  if (r"https://".toList).isPrefixOf u then
    (u.drop 8).takeWhile (fun c => !(c == '/' || c == '?' || c == '#'))
  else if (r"http://".toList).isPrefixOf u then
    (u.drop 7).takeWhile (fun c => !(c == '/' || c == '?' || c == '#'))
  else []

/-- Body of `clean_website_url` after its truthiness guard
(data_processor.py lines 227-241). -/
def website_body (w0 : Str) : Str :=
  let w1 := py_strip w0
  let w2 :=
    if w1 ≠ [] ∧ ¬((r"http://".toList).isPrefixOf w1 ∨ (r"https://".toList).isPrefixOf w1)
    then (r"https://".toList) ++ w1 else w1
  if netloc_of w2 ≠ [] then w2 else []

/-- `clean_website_url` (data_processor.py lines 222-241). -/
def clean_website_url (w : Str) : Str :=
  if w = [] then [] else website_body w

example : clean_website_url (r"example.edu.in".toList) = r"https://example.edu.in".toList := by decide
example : clean_website_url (r"   ".toList) = [] := by decide
example : clean_address (r"Main Rd, pincode 560001, Bangalore".toList) = r"Main Rd, , Bangalore".toList := by decide

/-- Per-item classification: the `for category, keywords ... break` loop of
`clean_and_categorize_courses`/`_facilities` — first category any of whose
keywords occurs in the (lowered) label wins, otherwise `Other`. -/
def categorize_with (table : List (Str × List Str)) (label : Str) : Str :=
  match table with
  | [] => r"Other".toList
  | (cat, kws) :: rest =>
    if kws.any (fun k => is_substr k label) then cat
    else categorize_with rest label

/-- The per-category lists, built in declaration order (table order, then
`Other`), each holding its items in input order; empty categories dropped —
exactly the dict the source builds by appending then filtering. -/
def build_categories (table : List (Str × List Str)) (items : List Str) :
    List (Str × List Str) :=
  ((table.map Prod.fst) ++ [r"Other".toList]).filterMap (fun cat =>
    let assigned := items.filter (fun it => categorize_with table (lowerStr it) = cat)
    if assigned = [] then none else some (cat, assigned))

/-- The `courses` value of the canonical record.  The early return for an
empty input has no `unique_categories` key, modelled by `none`. -/
structure CoursesInfo where
  courses : List Str
  categories : List (Str × List Str)
  total_courses : Nat
  unique_categories : Option Nat
deriving DecidableEq

structure FacilitiesInfo where
  facilities : List Str
  categories : List (Str × List Str)
  total_facilities : Nat
  unique_categories : Option Nat
deriving DecidableEq

/-- `clean_and_categorize_courses` (data_processor.py lines 243-283). -/
def clean_and_categorize_courses (l : List Str) : CoursesInfo :=
  if l = [] then ⟨[], [], 0, none⟩
  else
    let cleaned := (l.map clean_text).filter (fun c => 3 ≤ c.length ∧ c.length ≤ 100)
    let cats := build_categories course_categories cleaned
    ⟨cleaned.take 20, cats, cleaned.length, some cats.length⟩

/-- `clean_and_categorize_facilities` (data_processor.py lines 285-325). -/
def clean_and_categorize_facilities (l : List Str) : FacilitiesInfo :=
  if l = [] then ⟨[], [], 0, none⟩
  else
    let cleaned := (l.map clean_text).filter (fun c => 3 ≤ c.length ∧ c.length ≤ 100)
    let cats := build_categories facility_categories cleaned
    ⟨cleaned.take 15, cats, cleaned.length, some cats.length⟩

def promo_phrases : List Str :=
  [r"click here".toList, r"visit our website".toList, r"contact us".toList]

def match_promo (s : Str) : Option Nat :=
  (promo_phrases.find? (fun p => ci_prefix p s)).map List.length

/-- Global case-insensitive removal of the promotional phrases
(`re.sub(r'(click here|visit our website|contact us)', '', d, re.I)`). -/
def sub_promo_aux : Nat → Str → Str
  | _, [] => []
  | 0, s => s
  | n + 1, c :: rest =>
    match match_promo (c :: rest) with
    | some k => sub_promo_aux n ((c :: rest).drop k)
    | none => c :: sub_promo_aux n rest

def sub_promo (s : Str) : Str := sub_promo_aux s.length s

/-- Python `str.split(sep)` for a single-character separator. -/
def split_on_char (sep : Char) : Str → List Str
  | [] => [[]]
  | c :: rest =>
    let r := split_on_char sep rest
    if c = sep then [] :: r
    else match r with
      | h :: t => (c :: h) :: t
      | [] => [[c]]

/-- The sentence-accumulation loop of `clean_description`: a sentence is
appended (followed by a period) while the pre-period length check passes;
the loop stops at the first sentence that does not fit. -/
def trunc_loop (t : Str) : List Str → Str
  | [] => t
  | s :: rest =>
    if (t ++ s).length ≤ 500 then trunc_loop (t ++ s ++ ['.']) rest
    else t

/-- `clean_description` (data_processor.py lines 327-349). -/
def clean_description (d : Str) : Str :=
  if d = [] then []
  else
    let d1 := sub_promo (clean_text d)
    if 500 < d1.length then
      let t := trunc_loop [] (split_on_char '.' d1)
      if t ≠ [] then t else d1.take 500
    else d1

/-- Match of `\b(19|20)\d{2}\b` starting at position `p` of `s`. -/
def year_at (s : Str) (p : Nat) : Bool :=
  let sub := (s.drop p).take 4
  sub.length = 4 &&
  ((r"19".toList).isPrefixOf sub || (r"20".toList).isPrefixOf sub) &&
  (sub.drop 2).all Char.isDigit &&
  (if p = 0 then true else
    match s.get? (p - 1) with
    | some c => !isWordChar c
    | none => true) &&
  (match s.get? (p + 4) with
   | some c => !isWordChar c
   | none => true)

/-- `re.search(r'\b(19|20)\d{2}\b', s).group()`: the full text of the
leftmost match. -/
def find_year (s : Str) : Option Str :=
  ((List.range s.length).find? (fun p => year_at s p)).map
    (fun p => (s.drop p).take 4)

def str_to_nat (s : Str) : Nat :=
  s.foldl (fun n c => n * 10 + (c.toNat - 48)) 0

/-- Body of `clean_establishment_year` after its truthiness guard: the
matched year string is returned when `1800 <= year <= current_year`
(`str(int(m))` is the matched text again, which has no leading zero). -/
def est_year_body (current_year : Nat) (s : Str) : Str :=
  match find_year s with
  | none => []
  | some ys =>
    if 1800 ≤ str_to_nat ys ∧ str_to_nat ys ≤ current_year then ys else []

/-- `clean_establishment_year` (data_processor.py lines 351-366); for a
string-typed argument `str(year)` is the identity. -/
def clean_establishment_year (current_year : Nat) (y : Str) : Str :=
  if y = [] then [] else est_year_body current_year y

def common_affiliations : List Str :=
  [r"aicte".toList, r"ugc".toList, r"naac".toList, r"nba".toList, r"vtu".toList,
   r"bangalore university".toList, r"mysore university".toList,
   r"karnataka university".toList, r"mangalore university".toList]

/-- `clean_affiliation` (data_processor.py lines 368-386). -/
def clean_affiliation (a0 : Str) : Str :=
  if a0 = [] then []
  else
    let a := clean_text a0
    if common_affiliations.any (fun c => is_substr c (lowerStr a)) then a
    else if a.length ≤ 100 then a.take 100 else []

def image_extensions : List Str :=
  [r".jpg".toList, r".jpeg".toList, r".png".toList, r".webp".toList]

/-- `clean_image_urls` (data_processor.py lines 388-403): strip, keep absolute
http(s) URLs mentioning an image extension, cap at 5 — no de-duplication. -/
def clean_image_urls (l : List Str) : List Str :=
  if l = [] then []
  else
    (((l.map py_strip).filter (fun u =>
      ((r"http://".toList).isPrefixOf u || (r"https://".toList).isPrefixOf u) &&
      image_extensions.any (fun e => is_substr e (lowerStr u)))).take 5)

example : clean_establishment_year 2025 (r"Estd. 2999".toList) = [] := by decide
example : clean_establishment_year 2025 (r"Established 1995".toList) = r"1995".toList := by decide
example : categorize_with course_categories (r"b.tech computer science".toList) = r"Engineering".toList := by decide

/-- `determine_college_type` (data_processor.py lines 405-425): the category
with the most items, a strict-`>` scan so the first maximum wins; `General`
when there are no categories.  The `isinstance` guard is vacuous here: the
courses value is always the dict modelled by `CoursesInfo`. -/
def determine_college_type (ci : CoursesInfo) : Str :=
  if ci.categories = [] then r"General".toList
  else (ci.categories.foldl
    (fun acc pr => if acc.1 < pr.2.length then (pr.2.length, pr.1) else acc)
    (0, r"General".toList)).2

structure LocationInfo where
  city : Str
  district : Str
  state : Str
  region : Str
deriving DecidableEq

def city_district_map : List (Str × Str) :=
  [(r"bangalore".toList, r"Bangalore Urban".toList),
   (r"mysore".toList, r"Mysuru".toList),
   (r"hubli".toList, r"Dharwad".toList),
   (r"dharwad".toList, r"Dharwad".toList),
   (r"belgaum".toList, r"Belagavi".toList),
   (r"mangalore".toList, r"Dakshina Kannada".toList),
   (r"gulbarga".toList, r"Kalaburagi".toList),
   (r"davangere".toList, r"Davanagere".toList),
   (r"bellary".toList, r"Ballari".toList),
   (r"bijapur".toList, r"Vijayapura".toList),
   (r"shimoga".toList, r"Shivamogga".toList),
   (r"tumkur".toList, r"Tumakuru".toList)]

/-- `extract_location_details` (data_processor.py lines 427-471).  The city
keys are single lowercase words, for which `str.title()` is `capitalize`. -/
def extract_location_details (location : Str) : LocationInfo :=
  if location = [] then ⟨[], [], r"Karnataka".toList, []⟩
  else
    let ll := lowerStr location
    let found := city_district_map.find? (fun pr => is_substr pr.1 ll)
    let city := match found with
      | some pr => py_capitalize pr.1
      | none => []
    let district := match found with
      | some pr => pr.2
      | none => []
    let region :=
      if city ∈ [r"Bangalore".toList, r"Mysore".toList, r"Tumkur".toList] then
        r"South Karnataka".toList
      else if city ∈ [r"Hubli".toList, r"Dharwad".toList, r"Belgaum".toList] then
        r"North Karnataka".toList
      else if city ∈ [r"Mangalore".toList, r"Udupi".toList] then
        r"Coastal Karnataka".toList
      else []
    ⟨city, district, r"Karnataka".toList, region⟩

structure DataQuality where
  completeness : ℚ
  accuracy : Str
  freshness : Str
  reliability : Str
deriving DecidableEq

def edu_domains : List Str :=
  [r".edu".toList, r".ac.in".toList, r".gov.in".toList]

def directory_domains : List Str :=
  [r"careers360".toList, r"collegedunia".toList, r"shiksha".toList]

def accuracy_of_src (src : Str) : Str :=
  if edu_domains.any (fun d => is_substr d src) then r"high".toList
  else if directory_domains.any (fun d => is_substr d src) then r"medium".toList
  else r"low".toList

/-- RawRecord (spec §3): the typed view of the extractor/lookup output, all
fields strings or lists of strings. -/
structure RawRecord where
  name : Str
  location : Str
  address : Str
  phone : List Str
  email : List Str
  website : Str
  courses : List Str
  facilities : List Str
  description : Str
  established : Str
  affiliation : Str
  source_url : Str
  images : List Str
deriving DecidableEq

/-- `assess_data_quality` (data_processor.py lines 473-496), computed over the
RAW record: presence count of the five checklist fields, then the source-URL
domain test.  `freshness`/`reliability` keep their initial values.
`round(available/5, 2)` is exactly `20*available/100`, written in hundredths
(the reachable values are exact and never a rounding tie). -/
def assess_data_quality (raw : RawRecord) : DataQuality :=
  let available : Nat :=
    (if raw.name ≠ [] then 1 else 0) + (if raw.location ≠ [] then 1 else 0) +
    (if raw.courses ≠ [] then 1 else 0) + (if raw.phone ≠ [] then 1 else 0) +
    (if raw.description ≠ [] then 1 else 0)
  ⟨mkRat (20 * available) 100, accuracy_of_src raw.source_url,
   r"recent".toList, r"medium".toList⟩

/-- `len()` of the Python courses dict: three fixed keys, plus
`unique_categories` when present — never zero. -/
def courses_dict_len (ci : CoursesInfo) : Nat :=
  3 + (match ci.unique_categories with | some _ => 1 | none => 0)

def facilities_dict_len (fi : FacilitiesInfo) : Nat :=
  3 + (match fi.unique_categories with | some _ => 1 | none => 0)

/-- `calculate_completeness` (data_processor.py lines 498-519), reading the
seven weighted fields of the cleaned record.  For list values the
truthiness test and `len > 0` coincide with non-emptiness; for the courses
and facilities dicts `len` counts keys.  The weights 0.2/0.15/0.15/0.1/0.2/
0.1/0.1 are written in hundredths: the sum is an exact multiple of 1/100,
on which `round(score, 2)` is the identity. -/
def calculate_completeness (name location : Str) (phone email : List Str)
    (courses : CoursesInfo) (facilities : FacilitiesInfo)
    (description : Str) : ℚ :=
  mkRat (
    ((if name ≠ [] then 20 else 0) +
     (if location ≠ [] then 15 else 0) +
     (if phone ≠ [] then 15 else 0) +
     (if email ≠ [] then 10 else 0) +
     (if 0 < courses_dict_len courses then 20 else 0) +
     (if 0 < facilities_dict_len facilities then 10 else 0) +
     (if description ≠ [] then 10 else 0) : Nat)) 100

/-- CanonicalRecord (spec §3): the cleaner output.  `processed_at` (wall
clock, no logic) is omitted. -/
structure CanonicalRecord where
  name : Str
  location : Str
  address : Str
  phone : List Str
  email : List Str
  website : Str
  courses : CoursesInfo
  facilities : FacilitiesInfo
  description : Str
  established : Str
  affiliation : Str
  source_url : Str
  images : List Str
  college_type : Str
  location_info : LocationInfo
  completeness_score : ℚ
  data_quality : DataQuality
deriving DecidableEq

/-- `clean_college_data` (data_processor.py lines 93-123), the try-body: on a
typed RawRecord every step below is total, so this is also the value of the
function (the exception path is exercised by the dynamic model further
down). -/
def clean_college_data (current_year : Nat) (raw : RawRecord) : CanonicalRecord :=
  let name := clean_college_name raw.name
  let location := clean_location raw.location
  let phone := clean_phone_numbers raw.phone
  let email := clean_email_addresses raw.email
  let courses := clean_and_categorize_courses raw.courses
  let facilities := clean_and_categorize_facilities raw.facilities
  let description := clean_description raw.description
  { name := name
    location := location
    address := clean_address raw.address
    phone := phone
    email := email
    website := clean_website_url raw.website
    courses := courses
    facilities := facilities
    description := description
    established := clean_establishment_year current_year raw.established
    affiliation := clean_affiliation raw.affiliation
    source_url := raw.source_url
    images := clean_image_urls raw.images
    college_type := determine_college_type courses
    location_info := extract_location_details location
    completeness_score :=
      calculate_completeness name location phone email courses facilities description
    data_quality := assess_data_quality raw }

/-- Re-serialization of a canonical record as a RawRecord-shaped structure
(spec §8, Idempotence): the scalar fields verbatim, the flat item lists of
the courses/facilities values. -/
def serialize_canonical (c : CanonicalRecord) : RawRecord :=
  { name := c.name
    location := c.location
    address := c.address
    phone := c.phone
    email := c.email
    website := c.website
    courses := c.courses.courses
    facilities := c.facilities.facilities
    description := c.description
    established := c.established
    affiliation := c.affiliation
    source_url := c.source_url
    images := c.images }

def empty_raw : RawRecord :=
  ⟨[], [], [], [], [], [], [], [], [], [], [], [], []⟩

example : (clean_college_data 2025 empty_raw).name = r"Unknown College".toList := by decide
example : (clean_college_data 2025 empty_raw).completeness_score = mkRat 1 2 := by decide

/-- `re.findall(r'\b(19|20)\d{2}\b', text)` (scraper.py line 183): findall
with one capturing group returns the GROUP captures — the two characters
`19`/`20` — one per non-overlapping match, scanning left to right and
resuming after each full match. -/
def findall_year_groups_aux (s : Str) : Nat → Nat → List Str
  | 0, _ => []
  | n + 1, p =>
    if s.length ≤ p then []
    else if year_at s p then ((s.drop p).take 2) :: findall_year_groups_aux s n (p + 4)
    else findall_year_groups_aux s n (p + 1)

def findall_year_groups (s : Str) : List Str :=
  findall_year_groups_aux s (s.length + 1) 0

/-- The establishment-year assignment of the extractor (scraper.py lines
182-185): `years = re.findall(year_pattern, text); established = years[0]`,
applied to the text of an element found near an establishment keyword.  The
BeautifulSoup keyword search that selects the element is not modelled; the
claim is decided by what this snippet stores for the element's text. -/
def established_from_text (s : Str) : Option Str :=
  match findall_year_groups s with
  | [] => none
  | y :: _ => some y

example : established_from_text (r"Established in 1995".toList) = some (r"19".toList) := by decide

/-- The dynamic value universe of the Python-level model: the JSON-ish
values a raw-record dict can hold (strings, integers, lists of strings,
`None`).  This is the domain over which the cleaner's exception behaviour
is modelled. -/
inductive PyVal where
  | vstr (s : Str)
  | vint (n : Int)
  | vlist (l : List Str)
  | vnone
deriving DecidableEq

/-- Python truthiness on the modelled universe. -/
def truthy : PyVal → Bool
  | .vstr s => !s.isEmpty
  | .vint n => n ≠ 0
  | .vlist l => !l.isEmpty
  | .vnone => false

/-- A raw-record dict: association list, first binding of a key wins. -/
abbrev PyDict := List (Str × PyVal)

/-- `d.get(k, dflt)`. -/
def dict_get (d : PyDict) (k : Str) (dflt : PyVal) : PyVal :=
  match d with
  | [] => dflt
  | (k2, v) :: rest => if k2 = k then v else dict_get rest k dflt

/-- `k in d` resolved to the stored value, distinguishing absence. -/
def dict_find (d : PyDict) (k : Str) : Option PyVal :=
  match d with
  | [] => none
  | (k2, v) :: rest => if k2 = k then some v else dict_find rest k

/-- Python `repr` of a printable-ASCII string (the quote-selection rule;
escapes for backslash and the delimiter). -/
def repr_escape (delim : Char) (s : Str) : Str :=
  s.foldr (fun c acc =>
    if c = '\\' then '\\' :: '\\' :: acc
    else if c = delim then '\\' :: c :: acc
    else c :: acc) []

def repr_str (s : Str) : Str :=
  let sq := Char.ofNat 39
  if s.contains sq && !(s.contains '"') then
    '"' :: repr_escape '"' s ++ ['"']
  else sq :: repr_escape sq s ++ [sq]

/-- `str()` of a modelled value (for lists, the `repr` of a list of
printable strings). -/
def py_str : PyVal → Str
  | .vstr s => s
  | .vint n => (toString n).toList
  | .vnone => r"None".toList
  | .vlist l => '[' :: (List.intercalate (r", ".toList) (l.map repr_str)) ++ [']']

/-- `clean_text` on an arbitrary value: the `isinstance` guard sends
non-strings to the empty string. -/
def py_clean_text : PyVal → Str
  | .vstr s => clean_text s
  | _ => []

/-- Iterating a value in a `for` loop: lists yield their items, strings
yield their characters (all pass the loop's `isinstance(·, str)` check);
a truthy non-iterable raises `TypeError`. -/
def py_iter_strs : PyVal → Except Unit (List Str)
  | .vstr s => .ok (s.map (fun c => [c]))
  | .vlist l => .ok l
  | .vint _ => .error ()
  | .vnone => .error ()

/-- `clean_college_name` on a dict value: the truthiness guard, then the
string body (`clean_text` absorbs non-strings). -/
def dyn_clean_college_name (v : PyVal) : Str :=
  if !truthy v then r"Unknown College".toList else clean_name_body (py_clean_text v)

def dyn_clean_location (v : PyVal) : Str :=
  if !truthy v then []
  else
    let loc := py_clean_text v
    let ll := lowerStr loc
    match karnataka_cities.find? (fun c => is_substr c ll) with
    | some city => clean_text (city_window city ll)
    | none => if 100 < loc.length then loc.take 100 else loc

def dyn_clean_address (v : PyVal) : Str :=
  if !truthy v then []
  else
    let a := py_strip (collapse_ws (sub_pin (py_clean_text v)))
    if 200 < a.length then a.take 200 else a

def dyn_clean_description (v : PyVal) : Str :=
  if !truthy v then []
  else
    let d1 := sub_promo (py_clean_text v)
    if 500 < d1.length then
      let t := trunc_loop [] (split_on_char '.' d1)
      if t ≠ [] then t else d1.take 500
    else d1

def dyn_clean_establishment_year (current_year : Nat) (v : PyVal) : Str :=
  if !truthy v then [] else est_year_body current_year (py_str v)

def dyn_clean_affiliation (v : PyVal) : Str :=
  if !truthy v then []
  else
    let a := py_clean_text v
    if common_affiliations.any (fun c => is_substr c (lowerStr a)) then a
    else if a.length ≤ 100 then a.take 100 else []

/-- `clean_phone_numbers` on a dict value: falsy values short-circuit to `[]`
before the loop; iterating a truthy non-iterable raises. -/
def dyn_clean_phone_numbers (v : PyVal) : Except Unit (List Str) :=
  if !truthy v then .ok []
  else (py_iter_strs v).map clean_phone_numbers

def dyn_clean_email_addresses (v : PyVal) : Except Unit (List Str) :=
  if !truthy v then .ok []
  else (py_iter_strs v).map clean_email_addresses

def dyn_clean_courses (v : PyVal) : Except Unit CoursesInfo :=
  if !truthy v then .ok ⟨[], [], 0, none⟩
  else (py_iter_strs v).map clean_and_categorize_courses

def dyn_clean_facilities (v : PyVal) : Except Unit FacilitiesInfo :=
  if !truthy v then .ok ⟨[], [], 0, none⟩
  else (py_iter_strs v).map clean_and_categorize_facilities

def dyn_clean_images (v : PyVal) : Except Unit (List Str) :=
  if !truthy v then .ok []
  else (py_iter_strs v).map clean_image_urls

/-- `clean_website_url` on a dict value: `.strip()` on a truthy non-string
raises `AttributeError`. -/
def dyn_clean_website_url (v : PyVal) : Except Unit Str :=
  if !truthy v then .ok []
  else match v with
    | .vstr s => .ok (website_body s)
    | _ => .error ()

def accuracy_of_list (l : List Str) : Str :=
  if edu_domains.any (fun d => l.contains d) then r"high".toList
  else if directory_domains.any (fun d => l.contains d) then r"medium".toList
  else r"low".toList

/-- `assess_data_quality` on the raw dict: truthiness of the five checklist
keys; then `domain in source_url` — substring test on a string, membership
on a list, `TypeError` on an integer or `None`. -/
def dyn_assess_data_quality (d : PyDict) : Except Unit DataQuality :=
  let available : Nat :=
    (if truthy (dict_get d (r"name".toList) .vnone) then 1 else 0) +
    (if truthy (dict_get d (r"location".toList) .vnone) then 1 else 0) +
    (if truthy (dict_get d (r"courses".toList) .vnone) then 1 else 0) +
    (if truthy (dict_get d (r"phone".toList) .vnone) then 1 else 0) +
    (if truthy (dict_get d (r"description".toList) .vnone) then 1 else 0)
  let comp := mkRat (20 * available) 100
  match dict_find d (r"source_url".toList) with
  | none => .ok ⟨comp, accuracy_of_src [], r"recent".toList, r"medium".toList⟩
  | some (.vstr s) => .ok ⟨comp, accuracy_of_src s, r"recent".toList, r"medium".toList⟩
  | some (.vlist l) => .ok ⟨comp, accuracy_of_list l, r"recent".toList, r"medium".toList⟩
  | some (.vint _) => .error ()
  | some .vnone => .error ()

/-- The cleaned record of the dynamic model.  On the failure path the
source copies `name`/`location`/`description`/`source_url` from the raw
dict verbatim, so those four fields hold dynamic values; everything the
cleaners produce is typed. -/
structure CanonicalRecordDyn where
  name : PyVal
  location : PyVal
  address : Str
  phone : List Str
  email : List Str
  website : Str
  courses : CoursesInfo
  facilities : FacilitiesInfo
  description : PyVal
  established : Str
  affiliation : Str
  source_url : PyVal
  images : List Str
  college_type : Str
  location_info : LocationInfo
  completeness_score : ℚ
  data_quality : DataQuality
deriving DecidableEq

/-- The try-body of `clean_college_data` (data_processor.py lines 95-123)
over a raw dict: the field cleaners run in source order; the first raised
exception aborts the dict construction (which exception is immaterial —
the handler catches them all). -/
def clean_body_dyn (current_year : Nat) (d : PyDict) :
    Except Unit CanonicalRecordDyn :=
  let name := dyn_clean_college_name (dict_get d (r"name".toList) (.vstr []))
  let location := dyn_clean_location (dict_get d (r"location".toList) (.vstr []))
  let address := dyn_clean_address (dict_get d (r"address".toList) (.vstr []))
  match dyn_clean_phone_numbers (dict_get d (r"phone".toList) (.vlist [])) with
  | .error e => .error e
  | .ok phone =>
  match dyn_clean_email_addresses (dict_get d (r"email".toList) (.vlist [])) with
  | .error e => .error e
  | .ok email =>
  match dyn_clean_website_url (dict_get d (r"website".toList) (.vstr [])) with
  | .error e => .error e
  | .ok website =>
  match dyn_clean_courses (dict_get d (r"courses".toList) (.vlist [])) with
  | .error e => .error e
  | .ok courses =>
  match dyn_clean_facilities (dict_get d (r"facilities".toList) (.vlist [])) with
  | .error e => .error e
  | .ok facilities =>
  let description := dyn_clean_description (dict_get d (r"description".toList) (.vstr []))
  let established := dyn_clean_establishment_year current_year
    (dict_get d (r"established".toList) (.vstr []))
  let affiliation := dyn_clean_affiliation (dict_get d (r"affiliation".toList) (.vstr []))
  match dyn_clean_images (dict_get d (r"images".toList) (.vlist [])) with
  | .error e => .error e
  | .ok images =>
  match dyn_assess_data_quality d with
  | .error e => .error e
  | .ok dq =>
  .ok {
    name := .vstr name
    location := .vstr location
    address := address
    phone := phone
    email := email
    website := website
    courses := courses
    facilities := facilities
    description := .vstr description
    established := established
    affiliation := affiliation
    source_url := dict_get d (r"source_url".toList) (.vstr [])
    images := images
    college_type := determine_college_type courses
    location_info := extract_location_details location
    completeness_score :=
      calculate_completeness name location phone email courses facilities description
    data_quality := dq }

/-- `create_minimal_clean_data` (data_processor.py lines 521-542): the
fallback record built by the exception handler. -/
def create_minimal_clean_data (d : PyDict) : CanonicalRecordDyn :=
  { name := dict_get d (r"name".toList) (.vstr (r"Unknown College".toList))
    location := dict_get d (r"location".toList) (.vstr [])
    address := []
    phone := []
    email := []
    website := []
    courses := ⟨[], [], 0, none⟩
    facilities := ⟨[], [], 0, none⟩
    description := dict_get d (r"description".toList) (.vstr [])
    established := []
    affiliation := []
    source_url := dict_get d (r"source_url".toList) (.vstr [])
    images := []
    college_type := r"General".toList
    location_info := ⟨[], [], r"Karnataka".toList, []⟩
    completeness_score := mkRat 1 10
    data_quality := ⟨mkRat 1 10, r"low".toList, r"recent".toList, r"low".toList⟩ }

/-- `clean_college_data` over a raw dict: the `try`/`except` — any exception
from the body is absorbed and the minimal record returned.  The function is
total: it yields a `CanonicalRecordDyn` for every dict. -/
def clean_college_data_dyn (current_year : Nat) (d : PyDict) : CanonicalRecordDyn :=
  match clean_body_dyn current_year d with
  | .ok c => c
  | .error _ => create_minimal_clean_data d

def is_error {ε α : Type} : Except ε α → Bool
  | .error _ => true
  | .ok _ => false

def err_dict : PyDict := [(r"name".toList, PyVal.vstr (r"X".toList)), (r"phone".toList, PyVal.vint 7)]

example : is_error (clean_body_dyn 2025 err_dict) = true := by decide
example : clean_college_data_dyn 2025 err_dict = create_minimal_clean_data err_dict := by decide
example : is_error (clean_body_dyn 2025 []) = false := by decide

def test_college_raw : RawRecord :=
  { name := r"Test College".toList
    location := []
    address := []
    phone := []
    email := []
    website := []
    courses := []
    facilities := []
    description := []
    established := []
    affiliation := []
    source_url := []
    images := [] }

def c3_course_list : List Str :=
  [r"B.Tech Computer Science".toList, r"MBA Finance".toList, r"Painting Workshop".toList]

def long_desc : Str := List.replicate 500 'a' ++ r".bb".toList

def dup_courses_raw : RawRecord :=
  { name := []
    location := []
    address := []
    phone := []
    email := []
    website := []
    courses := [r"Painting Workshop".toList, r"Painting Workshop".toList]
    facilities := []
    description := []
    established := []
    affiliation := []
    source_url := []
    images := [] }

/-- `clean_text` with the entity-decode stage removed — the comparison
object of the amended C7: the stage is provably a no-op. -/
def clean_text_no_decode (s : Str) : Str :=
  if s = [] then []
  else py_strip ((collapse_ws s).filter isAllowedChar)

/-- Does any keyword of the table entry at position `j` occur in the label? -/
def any_kw_at (table : List (Str × List Str)) (j : Nat) (label : Str) : Bool :=
  match table.get? j with
  | some pr => pr.2.any (fun k => is_substr k label)
  | none => false

/-- Category name at position `i` of the table. -/
def cat_at (table : List (Str × List Str)) (i : Nat) : Str :=
  match table.get? i with
  | some pr => pr.1
  | none => r"Other".toList

def uu_raw : RawRecord :=
  { name := r"University of University of Mysore".toList
    location := []
    address := []
    phone := []
    email := []
    website := []
    courses := []
    facilities := []
    description := []
    established := []
    affiliation := []
    source_url := []
    images := [] }

/-- C2: for the raw record whose only populated field is `name = "Test
College"`, the code computes `data_quality.completeness = 0.20` as the claim
states, but `completeness_score = 0.50`, not 0.20: the courses and
facilities values are dicts with three fixed keys, so `len(data[field]) > 0`
always holds and their weights 0.2 and 0.1 are granted unconditionally. -/
theorem spec_c2 :
    (clean_college_data 2025 test_college_raw).completeness_score = mkRat 1 2 ∧
    (clean_college_data 2025 test_college_raw).data_quality.completeness = mkRat 1 5 := by
  decide

/-- C3 counterexample: on the claim's course list the categories mapping has
no `Computer Science` key at all — `B.Tech Computer Science` is filed under
`Engineering` (whose keyword list also contains `computer science` and which
is declared first), so the mapping is not the one the claim states. -/
theorem spec_c3_cex :
    List.lookup (r"Computer Science".toList)
      (clean_and_categorize_courses c3_course_list).categories = none ∧
    List.lookup (r"Engineering".toList)
      (clean_and_categorize_courses c3_course_list).categories =
      some [r"B.Tech Computer Science".toList] := by
  decide

/-- C3 amended: the course list `["B.Tech Computer Science", "MBA Finance",
"Painting Workshop"]` is categorized as `{"Engineering": ["B.Tech Computer
Science"], "Management": ["MBA Finance"], "Other": ["Painting Workshop"]}` —
`computer science` is also an Engineering keyword and Engineering is
declared before Computer Science, so first-match sends the course there. -/
theorem spec_c3 :
    (clean_and_categorize_courses c3_course_list).categories =
      [(r"Engineering".toList, [r"B.Tech Computer Science".toList]),
       (r"Management".toList, [r"MBA Finance".toList]),
       (r"Other".toList, [r"Painting Workshop".toList])] := by
  decide

/-- C8: for an element text containing the establishment year `1995`, the
extractor stores `"19"` — `re.findall` with the capturing group `(19|20)`
returns the group capture, not the full 4-digit match — contradicting the
claim (and spec) that the first full year string is taken.  (Downstream,
`clean_establishment_year` finds no 4-digit year in `"19"` and erases it.) -/
theorem spec_c8 :
    established_from_text (r"Established in 1995".toList) = some (r"19".toList) ∧
    some (r"19".toList) ≠ some (r"1995".toList) := by
  decide

theorem trunc_loop_length_le (ss : List Str) :
    ∀ t : Str, t.length ≤ 501 → (trunc_loop t ss).length ≤ 501 := by
  induction ss with
  | nil => intro t ht; simpa [trunc_loop] using ht
  | cons s rest ih =>
    intro t ht
    by_cases h : (t ++ s).length ≤ 500
    · rw [trunc_loop, if_pos h]
      refine ih _ ?_
      have : (t ++ s ++ ['.']).length = (t ++ s).length + 1 := by
        simp [List.length_append]; omega
      omega
    · rw [trunc_loop, if_neg h]; exact ht

theorem trunc_loop_ends_dot (ss : List Str) :
    ∀ t : Str, (t ≠ [] → t.getLast? = some '.') →
      trunc_loop t ss ≠ [] → (trunc_loop t ss).getLast? = some '.' := by
  induction ss with
  | nil => intro t ht hne; rw [trunc_loop] at hne ⊢; exact ht hne
  | cons s rest ih =>
    intro t ht hne
    rw [trunc_loop] at hne ⊢
    by_cases h : (t ++ s).length ≤ 500
    · rw [if_pos h] at hne ⊢
      refine ih _ (fun _ => ?_) hne
      rw [List.getLast?_concat]
    · rw [if_neg h] at hne ⊢; exact ht hne

/-- C5 (amended): the cleaned description is bounded by 501 characters, not
500: each accepted sentence is appended together with a period AFTER the
`<= 500` length check, so the final period can push the result one past the
bound (inputs that need no truncation stay at most 500 by the branch
condition).  And whenever the normalized, boilerplate-stripped text exceeds
500 characters and the sentence loop produced a non-empty prefix, the
result does end at a sentence boundary (its last character is the period
appended to the last accepted sentence); otherwise it is the 500-character
hard truncation. -/
theorem spec_c5 (s : Str) :
    (clean_description s).length ≤ 501 ∧
    (500 < (sub_promo (clean_text s)).length →
      trunc_loop [] (split_on_char '.' (sub_promo (clean_text s))) ≠ [] →
      (clean_description s).getLast? = some '.') := by
  constructor
  · rw [clean_description]
    by_cases h0 : s = []
    · simp [h0]
    · rw [if_neg h0]
      by_cases hlong : 500 < (sub_promo (clean_text s)).length
      · rw [if_pos hlong]
        by_cases ht : trunc_loop [] (split_on_char '.' (sub_promo (clean_text s))) ≠ []
        · rw [if_pos ht]
          exact trunc_loop_length_le _ [] (by simp)
        · rw [if_neg ht]
          have := List.length_take 500 (sub_promo (clean_text s))
          omega
      · rw [if_neg hlong]
        omega
  · intro hlong ht
    have h0 : s ≠ [] := by
      intro h
      rw [h] at hlong
      simp [clean_text, sub_promo, sub_promo_aux] at hlong
    rw [clean_description, if_neg h0, if_pos hlong, if_pos ht]
    exact trunc_loop_ends_dot _ [] (fun h => absurd rfl h) ht

set_option maxRecDepth 100000

/-- C5 counterexample: a 503-character description (500 letters, a period,
two letters) cleans to exactly 501 characters — the first sentence (length
500) passes the `<= 500` check and then receives its period — so the
claimed 500-character bound is violated. -/
theorem spec_c5_cex : 500 < (clean_description long_desc).length := by decide

theorem phone_loop_not_mem_seen :
    ∀ (l seen : List Str) (x : Str), x ∈ phone_loop l seen → x ∉ seen := by
  intro l
  induction l with
  | nil => intro seen x hx; simp [phone_loop] at hx
  | cons p rest ih =>
    intro seen x hx
    rw [phone_loop] at hx
    split at hx
    · split at hx
      · exact ih seen x hx
      · next v hv =>
          rcases List.mem_cons.mp hx with h | h
          · subst h; exact hv
          · intro hxs
            exact (ih _ x h) (List.mem_cons_of_mem _ hxs)
    · exact ih seen x hx

theorem phone_loop_nodup : ∀ (l seen : List Str), (phone_loop l seen).Nodup := by
  intro l
  induction l with
  | nil => intro seen; simp [phone_loop]
  | cons p rest ih =>
    intro seen
    rw [phone_loop]
    split
    · split
      · exact ih seen
      · refine List.nodup_cons.mpr ⟨?_, ih _⟩
        intro hvmem
        exact (phone_loop_not_mem_seen _ _ _ hvmem) (List.mem_cons_self _ seen)
    · exact ih seen

theorem email_loop_not_mem_seen :
    ∀ (l seen : List Str) (x : Str), x ∈ email_loop l seen → x ∉ seen := by
  intro l
  induction l with
  | nil => intro seen x hx; simp [email_loop] at hx
  | cons e rest ih =>
    intro seen x hx
    rw [email_loop] at hx
    split at hx
    · next hc =>
        have hv : lowerStr (py_strip e) ∉ seen := by
          rcases Bool.and_eq_true_iff.mp hc with ⟨-, h2⟩
          simpa using h2
        rcases List.mem_cons.mp hx with h | h
        · subst h; exact hv
        · intro hxs
          exact (ih _ x h) (List.mem_cons_of_mem _ hxs)
    · exact ih seen x hx

theorem email_loop_nodup : ∀ (l seen : List Str), (email_loop l seen).Nodup := by
  intro l
  induction l with
  | nil => intro seen; simp [email_loop]
  | cons e rest ih =>
    intro seen
    rw [email_loop]
    split
    · refine List.nodup_cons.mpr ⟨?_, ih _⟩
      intro hvmem
      exact (email_loop_not_mem_seen _ _ _ hvmem) (List.mem_cons_self _ seen)
    · exact ih seen

/-- C4 (amended): every bounded sequence of the canonical record respects
its cap (phones 5, emails 3, course items 20, facility items 15, images 5),
and the phone and email lists are duplicate-free; the course, facility and
image lists are NOT de-duplicated by the cleaner (see the counterexample). -/
theorem spec_c4 (current_year : Nat) (raw : RawRecord) :
    (clean_college_data current_year raw).phone.length ≤ 5 ∧
    (clean_college_data current_year raw).email.length ≤ 3 ∧
    (clean_college_data current_year raw).courses.courses.length ≤ 20 ∧
    (clean_college_data current_year raw).facilities.facilities.length ≤ 15 ∧
    (clean_college_data current_year raw).images.length ≤ 5 ∧
    (clean_college_data current_year raw).phone.Nodup ∧
    (clean_college_data current_year raw).email.Nodup := by
  refine ⟨?_, ?_, ?_, ?_, ?_, ?_, ?_⟩
  · show (clean_phone_numbers raw.phone).length ≤ 5
    rw [clean_phone_numbers]
    split
    · simp
    · have := List.length_take 5 (phone_loop raw.phone [])
      omega
  · show (clean_email_addresses raw.email).length ≤ 3
    rw [clean_email_addresses]
    split
    · simp
    · have := List.length_take 3 (email_loop raw.email [])
      omega
  · show (clean_and_categorize_courses raw.courses).courses.length ≤ 20
    rw [clean_and_categorize_courses]
    split
    · simp
    · simp [List.length_take]
  · show (clean_and_categorize_facilities raw.facilities).facilities.length ≤ 15
    rw [clean_and_categorize_facilities]
    split
    · simp
    · simp [List.length_take]
  · show (clean_image_urls raw.images).length ≤ 5
    rw [clean_image_urls]
    split
    · simp
    · have := List.length_take 5
        ((raw.images.map py_strip).filter (fun u =>
          ((r"http://".toList).isPrefixOf u || (r"https://".toList).isPrefixOf u) &&
          image_extensions.any (fun e => is_substr e (lowerStr u))))
      omega
  · show (clean_phone_numbers raw.phone).Nodup
    rw [clean_phone_numbers]
    split
    · simp
    · exact ((List.take_sublist 5 _).nodup (phone_loop_nodup raw.phone []))
  · show (clean_email_addresses raw.email).Nodup
    rw [clean_email_addresses]
    split
    · simp
    · exact ((List.take_sublist 3 _).nodup (email_loop_nodup raw.email []))

/-- C4 counterexample: the cleaner keeps both copies of a duplicated course —
the `courses` item list has no de-duplication (unlike phones and emails), so
the claimed duplicate-freedom of every bounded sequence is false. -/
theorem spec_c4_cex :
    ¬ (clean_college_data 2025 dup_courses_raw).courses.courses.Nodup := by
  decide

theorem replace_all_aux_id_of_amp (pat rep : Str) (hpat : pat.head? = some '&') :
    ∀ (fuel : Nat) (s : Str), '&' ∉ s → replace_all_aux pat rep fuel s = s := by
  intro fuel
  induction fuel with
  | zero => intro s _; cases s <;> rfl
  | succ n ih =>
    intro s hs
    cases s with
    | nil => rfl
    | cons c rest =>
      have hpre : pat.isPrefixOf (c :: rest) = false := by
        cases pat with
        | nil => simp at hpat
        | cons p ps =>
          have hp : p = '&' := by simpa using hpat
          subst hp
          have hc : c ≠ '&' := fun h => hs (h ▸ List.mem_cons_self c rest)
          simp [List.isPrefixOf]
          intro h
          exact absurd h.symm hc
      rw [replace_all_aux, hpre]
      simp only [Bool.and_false]
      rw [if_neg (by simp)]
      have : '&' ∉ rest := fun h => hs (List.mem_cons_of_mem c h)
      rw [ih rest this]

theorem replace_all_id_of_amp (pat rep s : Str) (hpat : pat.head? = some '&')
    (hs : '&' ∉ s) : replace_all pat rep s = s :=
  replace_all_aux_id_of_amp pat rep hpat s.length s hs

theorem mem_py_strip {c : Char} {s : Str} (h : c ∈ py_strip s) : c ∈ s := by
  rw [py_strip] at h
  rw [List.mem_reverse] at h
  have h1 := (List.dropWhile_sublist (l := (s.dropWhile pyIsSpace).reverse) pyIsSpace).mem h
  rw [List.mem_reverse] at h1
  exact (List.dropWhile_sublist pyIsSpace).mem h1

theorem amp_not_mem_filtered (s : Str) : '&' ∉ (collapse_ws s).filter isAllowedChar := by
  intro h
  have := (List.mem_filter.mp h).2
  simp [isAllowedChar, isWordChar, pyIsSpace] at this

theorem apply_entities_id_of_amp (t : Str) (ht : '&' ∉ t) : apply_entities t = t := by
  rw [apply_entities, html_entities]
  simp only [List.foldl]
  rw [replace_all_id_of_amp _ _ _ (by decide) ht,
      replace_all_id_of_amp _ _ _ (by decide) ht,
      replace_all_id_of_amp _ _ _ (by decide) ht,
      replace_all_id_of_amp _ _ _ (by decide) ht,
      replace_all_id_of_amp _ _ _ (by decide) ht,
      replace_all_id_of_amp _ _ _ (by decide) ht,
      replace_all_id_of_amp _ _ _ (by decide) ht]

/-- C7 (amended): `clean_text` never decodes any HTML entity.  The charset
strip that precedes the entity table removes every `&` (and `;`, `#`), so no
entity pattern survives to the decode stage: the stage is the identity, the
function equals its decode-free variant, and the output never contains `&`
(so in particular an input `&amp;` can never reappear as `&`). -/
theorem spec_c7 (s : Str) :
    clean_text s = clean_text_no_decode s ∧ '&' ∉ clean_text s := by
  constructor
  · rw [clean_text, clean_text_no_decode]
    by_cases h0 : s = []
    · simp [h0]
    · rw [if_neg h0, if_neg h0,
        apply_entities_id_of_amp _ (amp_not_mem_filtered s)]
  · rw [clean_text]
    by_cases h0 : s = []
    · simp [h0]
    · rw [if_neg h0, apply_entities_id_of_amp _ (amp_not_mem_filtered s)]
      intro hmem
      exact amp_not_mem_filtered s (mem_py_strip hmem)

/-- C7 counterexample: the input `x &amp; y` cleans to `x amp y`, which
contains no ampersand — the claim that an input containing `&amp;` yields an
output containing the decoded `&` is false (the whitelist strip deletes `&`
and `;` before the entity table is consulted). -/
theorem spec_c7_cex :
    clean_text (r"x &amp; y".toList) = r"x amp y".toList ∧
    '&' ∉ clean_text (r"x &amp; y".toList) := by
  decide

/-- C6: classification is first-match over the table in declaration order —
if the entry at position `i` has a matching keyword and no earlier entry
does, the result is exactly the category declared at `i` (so a label
matching two categories resolves to the one declared first); and if no
entry matches, the result is `Other`.  Instantiated by the witness at the
course table with `computer science`, which matches both Engineering
(position 0) and Computer Science (position 6) and resolves to
Engineering. -/
theorem spec_c6 (table : List (Str × List Str)) (label : Str) :
    (∀ i : Nat, any_kw_at table i label = true →
      (∀ j : Nat, j < i → any_kw_at table j label = false) →
      categorize_with table label = cat_at table i) ∧
    ((∀ j : Nat, any_kw_at table j label = false) →
      categorize_with table label = r"Other".toList) := by
  constructor
  · intro i
    induction table generalizing i with
    | nil => intro hi _; simp [any_kw_at] at hi
    | cons q rest ih =>
      intro hi hprev
      cases i with
      | zero =>
        have : q.2.any (fun k => is_substr k label) = true := by
          simpa [any_kw_at] using hi
        rw [categorize_with]
        simp [this, cat_at, any_kw_at]
      | succ n =>
        have h0 : any_kw_at (q :: rest) 0 label = false := hprev 0 (Nat.succ_pos n)
        have hq : q.2.any (fun k => is_substr k label) = false := by
          simpa [any_kw_at] using h0
        rw [categorize_with]
        rw [if_neg (by simp [hq])]
        have hi' : any_kw_at rest n label = true := by
          simpa [any_kw_at] using hi
        have hprev' : ∀ j : Nat, j < n → any_kw_at rest j label = false := by
          intro j hj
          have := hprev (j + 1) (Nat.succ_lt_succ hj)
          simpa [any_kw_at] using this
        have := ih n hi' hprev'
        simpa [cat_at, any_kw_at] using this
  · intro hnone
    induction table with
    | nil => rfl
    | cons q rest ih =>
      have hq : q.2.any (fun k => is_substr k label) = false := by
        simpa [any_kw_at] using hnone 0
      rw [categorize_with]
      rw [if_neg (by simp [hq])]
      refine ih ?_
      intro j
      have := hnone (j + 1)
      simpa [any_kw_at] using this

/-- C6 witness: `computer science` matches keywords of both Engineering
(declared first) and Computer Science and resolves to Engineering; a label
matching no keyword resolves to Other.  Both conclusions are obtained by
applying `spec_c6`. -/
theorem spec_c6_witness :
    categorize_with course_categories (r"computer science".toList) = r"Engineering".toList ∧
    categorize_with course_categories (r"zzz".toList) = r"Other".toList := by
  constructor
  · rw [(spec_c6 course_categories (r"computer science".toList)).1 0 (by decide)
      (fun j hj => absurd hj (Nat.not_lt_zero j))]
    decide
  · exact (spec_c6 course_categories (r"zzz".toList)).2 (by
      intro j
      by_cases hlt : j < 8
      · interval_cases j <;> decide
      · rw [any_kw_at, List.get?_eq_none.mpr (by simp [course_categories]; omega)])

/-- C1: cleaning is total — `clean_college_data_dyn` returns a record for
every raw dict by construction — and whenever the try-body raises (the
`Except.error` channel), the result is exactly `create_minimal_clean_data`:
the canonical record with every collection field empty
(`phone`/`email`/`images` empty lists, `courses`/`facilities` the empty
three-key dicts), `completeness_score = 0.1`, and `data_quality =
{completeness: 0.1, accuracy: "low", freshness: "recent", reliability:
"low"}`, with `name`/`location`/`description`/`source_url` carried over
from the raw dict. -/
theorem spec_c1 (current_year : Nat) (d : PyDict)
    (h : is_error (clean_body_dyn current_year d) = true) :
    clean_college_data_dyn current_year d = create_minimal_clean_data d ∧
    (create_minimal_clean_data d).phone = [] ∧
    (create_minimal_clean_data d).email = [] ∧
    (create_minimal_clean_data d).images = [] ∧
    (create_minimal_clean_data d).courses = ⟨[], [], 0, none⟩ ∧
    (create_minimal_clean_data d).facilities = ⟨[], [], 0, none⟩ ∧
    (create_minimal_clean_data d).completeness_score = mkRat 1 10 ∧
    (create_minimal_clean_data d).data_quality =
      ⟨mkRat 1 10, r"low".toList, r"recent".toList, r"low".toList⟩ := by
  refine ⟨?_, rfl, rfl, rfl, rfl, rfl, rfl, rfl⟩
  rw [clean_college_data_dyn]
  cases hb : clean_body_dyn current_year d with
  | ok c => rw [hb] at h; simp [is_error] at h
  | error e => rfl

/-- C1 witness: the dict `{name: "X", phone: 7}` — a truthy non-iterable
phone value — makes the try-body raise `TypeError`, and the cleaner returns
the minimal record. -/
theorem spec_c1_witness :
    is_error (clean_body_dyn 2025 err_dict) = true ∧
    clean_college_data_dyn 2025 err_dict = create_minimal_clean_data err_dict := by
  exact ⟨by decide, (spec_c1 2025 err_dict (by decide)).1⟩

/-- C10: on both the normal path and the failure path the canonical record's
`source_url` is the raw dict's `source_url` value verbatim (the empty string
when the key is absent) — the cleaner never modifies, validates or truncates
it. -/
theorem spec_c10 (current_year : Nat) (d : PyDict) :
    (clean_college_data_dyn current_year d).source_url =
      dict_get d (r"source_url".toList) (.vstr []) := by
  rw [clean_college_data_dyn]
  cases hb : clean_body_dyn current_year d with
  | error e => rfl
  | ok c =>
    rw [clean_body_dyn] at hb
    repeat' split at hb
    all_goals first
      | exact Except.noConfusion hb
      | (dsimp only at hb; injection hb with h2; subst h2; rfl)

theorem clean_eq_of_parts (cy : Nat) (r : RawRecord) (c : CanonicalRecord)
    (h1 : clean_college_name r.name = c.name)
    (h2 : clean_location r.location = c.location)
    (h3 : clean_address r.address = c.address)
    (h4 : clean_phone_numbers r.phone = c.phone)
    (h5 : clean_email_addresses r.email = c.email)
    (h6 : clean_website_url r.website = c.website)
    (h7 : clean_and_categorize_courses r.courses = c.courses)
    (h8 : clean_and_categorize_facilities r.facilities = c.facilities)
    (h9 : clean_description r.description = c.description)
    (h10 : clean_establishment_year cy r.established = c.established)
    (h11 : clean_affiliation r.affiliation = c.affiliation)
    (h12 : r.source_url = c.source_url)
    (h13 : clean_image_urls r.images = c.images)
    (h14 : assess_data_quality r = c.data_quality)
    (h15 : determine_college_type c.courses = c.college_type)
    (h16 : extract_location_details c.location = c.location_info)
    (h17 : calculate_completeness c.name c.location c.phone c.email c.courses
      c.facilities c.description = c.completeness_score) :
    clean_college_data cy r = c := by
  cases c
  dsimp only at h1 h2 h3 h4 h5 h6 h7 h8 h9 h10 h11 h12 h13 h14 h15 h16 h17
  subst h1 h2 h3 h4 h5 h6 h7 h8 h9 h10 h11 h12 h13 h14 h15 h16 h17
  rfl

/-- C9 (amended): cleaning is NOT unconditionally a fixed point on its own
re-serialized output (see the counterexample); it is a fixed point exactly
on the canonical-shaped inputs whose fields the individual cleaners leave
unchanged: whenever every field cleaner fixes the corresponding field of
`clean(raw)` and the raw-dict quality assessment of the re-serialization
agrees with the stored `data_quality`, re-cleaning the re-serialization
reproduces the canonical record exactly (the derived fields `college_type`,
`location_info` and `completeness_score` are recomputed from the unchanged
cleaned fields and therefore agree automatically). -/
theorem spec_c9 (cy : Nat) (raw : RawRecord)
    (H1 : clean_college_name (clean_college_data cy raw).name =
      (clean_college_data cy raw).name)
    (H2 : clean_location (clean_college_data cy raw).location =
      (clean_college_data cy raw).location)
    (H3 : clean_address (clean_college_data cy raw).address =
      (clean_college_data cy raw).address)
    (H4 : clean_phone_numbers (clean_college_data cy raw).phone =
      (clean_college_data cy raw).phone)
    (H5 : clean_email_addresses (clean_college_data cy raw).email =
      (clean_college_data cy raw).email)
    (H6 : clean_website_url (clean_college_data cy raw).website =
      (clean_college_data cy raw).website)
    (H7 : clean_and_categorize_courses (clean_college_data cy raw).courses.courses =
      (clean_college_data cy raw).courses)
    (H8 : clean_and_categorize_facilities (clean_college_data cy raw).facilities.facilities =
      (clean_college_data cy raw).facilities)
    (H9 : clean_description (clean_college_data cy raw).description =
      (clean_college_data cy raw).description)
    (H10 : clean_establishment_year cy (clean_college_data cy raw).established =
      (clean_college_data cy raw).established)
    (H11 : clean_affiliation (clean_college_data cy raw).affiliation =
      (clean_college_data cy raw).affiliation)
    (H12 : clean_image_urls (clean_college_data cy raw).images =
      (clean_college_data cy raw).images)
    (H13 : assess_data_quality (serialize_canonical (clean_college_data cy raw)) =
      (clean_college_data cy raw).data_quality) :
    clean_college_data cy (serialize_canonical (clean_college_data cy raw)) =
      clean_college_data cy raw := by
  exact clean_eq_of_parts cy (serialize_canonical (clean_college_data cy raw))
    (clean_college_data cy raw)
    H1 H2 H3 H4 H5 H6 H7 H8 H9 H10 H11 rfl H12 H13 rfl rfl rfl

/-- C9 witness: the record with only `name = "Test College"` populated —
every field cleaner fixes the corresponding cleaned field, the quality
assessment of the re-serialization agrees, and re-cleaning the
re-serialization reproduces the canonical record. -/
theorem spec_c9_witness :
    clean_college_name (clean_college_data 2025 test_college_raw).name =
      (clean_college_data 2025 test_college_raw).name ∧
    clean_college_data 2025 (serialize_canonical (clean_college_data 2025 test_college_raw)) =
      clean_college_data 2025 test_college_raw := by
  exact ⟨by decide,
    spec_c9 2025 test_college_raw (by decide) (by decide) (by decide) (by decide)
      (by decide) (by decide) (by decide) (by decide) (by decide) (by decide)
      (by decide) (by decide) (by decide)⟩

/-- C9 counterexample: for the canonical-shaped record produced from the
name `University of University of Mysore`, re-cleaning the re-serialization
changes the record — the cleaned name `University of Mysore` is stripped
again to `Mysore` by the leading-phrase rule — so cleaning is not a fixed
point on already-canonical-shaped inputs as the claim states. -/
theorem spec_c9_cex :
    clean_college_data 2025 (serialize_canonical (clean_college_data 2025 uu_raw)) ≠
      clean_college_data 2025 uu_raw := by
  decide
